import Mathlib

/-!
# Verification of the panscola column-specification & table-layout engine

Shallow embedding of the table-matrix compiler (`src/panscola/table.py`) and
the column-definition DSL (`src/panscola/_latex_column_definitions.py`,
`src/panscola/_parsers.py`).  Python floats are modelled as `ℚ`; fallible
Python code (raising exceptions) is modelled with `Except`.
-/

namespace Panscola

/-! ## Python runtime helpers -/

/-- The Python exceptions raised by the embedded code. -/
inductive PyErr where
  | valueError (msg : String)
  | typeError (msg : String)
  | indexError (msg : String)
  | nameError (msg : String)
  | zeroDivisionError
  | attributeError (msg : String)
  | parseException (msg : String)
  deriving DecidableEq, Repr

/-- Python `/` on numbers: raises `ZeroDivisionError` on a zero divisor. -/
def pyDivQ (a b : ℚ) : Except PyErr ℚ :=
  if b = 0 then .error .zeroDivisionError else .ok (a / b)

/-! ## Table model (`table.py`)

`table_matrix_to_pf` (table.py lines 165–228) receives a matrix of rows of
cells.  A cell is either a plain string (one logical column) or an
attributed cell carrying `col_span` (default 1) and `repeat` (default 1).
Only these two attributes affect the column-count bookkeeping, so a matrix
cell is embedded as the pair of them; a plain cell is `{}` (both 1). -/

structure MatrixCell where
  colSpan : ℕ := 1
  repeatCnt : ℕ := 1
  deriving DecidableEq, Repr

structure BuiltCell where
  colSpan : ℕ
  covered : Bool
  deriving DecidableEq, Repr

/-- The cells appended for one matrix cell: for each of `repeat` copies the
cell itself followed by `col_span - 1` covered placeholder cells
(`for i in range(1, col_span)`).  `new_col_cnt` is incremented once per
appended cell, so the row's logical column count is the length of this
expansion. -/
def buildCellExpansion (c : MatrixCell) : List BuiltCell :=
  (List.range c.repeatCnt).flatMap
    (fun _ => ⟨c.colSpan, false⟩ :: List.replicate (c.colSpan - 1) ⟨1, true⟩)

def buildRowCells (row : List MatrixCell) : List BuiltCell :=
  row.flatMap buildCellExpansion

/-- `new_col_cnt` accumulated for one row. -/
def rowColCnt (row : List MatrixCell) : ℕ :=
  (buildRowCells row).length

inductive BuildError where
  /-- `IndexError(f'Expected {old_col_cnt} columns but got {new_col_cnt} in {row}')`;
  the exception is raised while processing the row at `rowIdx`, and its
  message names the expected count, the actual count and the offending row
  (by value). -/
  | indexError (expected got rowIdx : ℕ)
  /-- `utils.check_type(None, int)` on an empty matrix (`col_cnt=None`). -/
  | typeError (msg : String)
  deriving DecidableEq, Repr

structure BuiltTable where
  col_cnt : ℕ
  row_cnt : ℕ
  rows : List (List BuiltCell)
  deriving DecidableEq, Repr

/-- The per-row loop of `table_matrix_to_pf`: each row's count is compared
with the first row's count (`old_col_cnt`); `idx` is the loop index. -/
def buildRows (expected : ℕ) (idx : ℕ) :
    List (List MatrixCell) → Except BuildError (List (List BuiltCell))
  | [] => .ok []
  | row :: rest =>
    let new_col_cnt := rowColCnt row
    if new_col_cnt ≠ expected then
      .error (.indexError expected new_col_cnt idx)
    else do
      let rs ← buildRows expected (idx + 1) rest
      .ok (buildRowCells row :: rs)

/-- `table_matrix_to_pf` (table.py 165–228), restricted to the structural
bookkeeping: builds every row, checking each row's logical column count
against the first row's; on success returns the table with
`col_cnt = old_col_cnt` and `row_cnt = len(table)`.  An empty matrix leaves
`old_col_cnt = None` and `utils.check_type(None, int)` raises `TypeError`. -/
def table_matrix_to_pf (table : List (List MatrixCell)) :
    Except BuildError BuiltTable :=
  match table with
  | [] => .error (.typeError "Couldn't convert None of type NoneType to int")
  | first :: _ => do
    let expected := rowColCnt first
    let rows ← buildRows expected 0 table
    .ok ⟨expected, table.length, rows⟩

/-! ## Width allocation (`render_table_latex` lines 320–327,
`render_table_odt` lines 503–507) -/

/-- Default `total_width` of `Table.__init__` (table.py line 32). -/
def table_total_width_default : ℚ := 0.8

/-- Lines 320–327 of `render_table_latex`:
```
unoccupied_width = 1 - sum(table.width)
unspecified_widths = len([w for w in table.width if not w])
remaining_for_each = unoccupied_width / unspecified_widths
widths = [w if w else remaining_for_each for w in table.width]
widths = list(map(lambda x: x * table.total_width, widths))
```
(`not w` on a float is true exactly for `0`). -/
def render_table_latex_widths (width : List ℚ) (total_width : ℚ) :
    Except PyErr (List ℚ) := do
  let unoccupied_width := 1 - width.sum
  let unspecified_widths := (width.filter (fun w => w = 0)).length
  let remaining_for_each ← pyDivQ unoccupied_width unspecified_widths
  let widths := width.map (fun w => if w = 0 then remaining_for_each else w)
  .ok (widths.map (fun x => x * total_width))

/-- Lines 503–507 of `render_table_odt`: textually the same computation. -/
def render_table_odt_widths (width : List ℚ) (total_width : ℚ) :
    Except PyErr (List ℚ) := do
  let unoccupied_width := 1 - width.sum
  let unspecified_widths := (width.filter (fun w => w = 0)).length
  let remaining_for_each ← pyDivQ unoccupied_width unspecified_widths
  let widths := width.map (fun w => if w = 0 then remaining_for_each else w)
  .ok (widths.map (fun x => x * total_width))

/-! ## Underline emission (`render_table_latex` lines 419–437) -/

inductive Hline where
  | full
  | cmidrule (start stop : ℕ) (cmidruleoption : String)
  deriving DecidableEq, Repr

/-- The rule emitted for one `(start, stop)` underline of a row:
```
if start == 1 and stop == table.col_cnt: lt.add_hline()
else:
    if start > 1 and stop < table.col_cnt: side = 'rl'
    elif start > 1: side = 'l'
    else: side = 'r'
    lt.add_hline(start=start, end=stop, cmidruleoption=side)
``` -/
def underline_hline (col_cnt start stop : ℕ) : Hline :=
  if start = 1 ∧ stop = col_cnt then .full
  else if 1 < start ∧ stop < col_cnt then .cmidrule start stop "rl"
  else if 1 < start then .cmidrule start stop "l"
  else .cmidrule start stop "r"

/-- The trim codes carried by an emitted rule (empty for a full rule). -/
def hlineTrim : Hline → String
  | .full => ""
  | .cmidrule _ _ s => s

/-! ## Helper lemmas -/

theorem buildRows_ok (expected : ℕ) (rows : List (List MatrixCell))
    (h : ∀ r ∈ rows, rowColCnt r = expected) (idx : ℕ) :
    buildRows expected idx rows = .ok (rows.map buildRowCells) := by
  induction rows generalizing idx with
  | nil => rfl
  | cons row rest ih =>
    have hrow : rowColCnt row = expected := h row (by simp)
    have hrest : ∀ r ∈ rest, rowColCnt r = expected := fun r hr => h r (by simp [hr])
    simp only [buildRows]
    rw [if_neg (by simp [hrow]), ih hrest (idx + 1)]
    rfl

theorem buildRows_err (expected : ℕ) (rows : List (List MatrixCell))
    (h : ∃ r ∈ rows, rowColCnt r ≠ expected) (idx : ℕ) :
    ∃ j row, rows.get? j = some row ∧ rowColCnt row ≠ expected ∧
      (∀ k < j, ∀ rk, rows.get? k = some rk → rowColCnt rk = expected) ∧
      buildRows expected idx rows =
        .error (.indexError expected (rowColCnt row) (idx + j)) := by
  induction rows generalizing idx with
  | nil => simp at h
  | cons row rest ih =>
    by_cases hrow : rowColCnt row = expected
    · have hrest : ∃ r ∈ rest, rowColCnt r ≠ expected := by
        rcases h with ⟨r, hr, hne⟩
        rcases List.mem_cons.mp hr with h1 | h2
        · exact absurd (h1 ▸ hrow) hne
        · exact ⟨r, h2, hne⟩
      rcases ih hrest (idx + 1) with ⟨j, r, hget, hne, hmin, heq⟩
      refine ⟨j + 1, r, by simpa using hget, hne, ?_, ?_⟩
      · intro k hk rk hgetk
        cases k with
        | zero =>
          simp only [List.get?] at hgetk
          cases hgetk
          exact hrow
        | succ k' =>
          exact hmin k' (by omega) rk (by simpa using hgetk)
      · have hidx : idx + 1 + j = idx + (j + 1) := by omega
        rw [hidx] at heq
        simp only [buildRows]
        rw [if_neg (by simp [hrow]), heq]
        rfl
    · refine ⟨0, row, rfl, hrow, ?_, ?_⟩
      · intro k hk
        omega
      · simp only [buildRows]
        rw [if_pos hrow]
        simp

theorem sum_map_mul_right_q (l : List ℚ) (t : ℚ) :
    (l.map (fun x => x * t)).sum = l.sum * t := by
  induction l with
  | nil => simp
  | cons a l ih => simp [ih, add_mul]

theorem sum_map_fill_zeros (l : List ℚ) (r : ℚ) :
    (l.map (fun w => if w = 0 then r else w)).sum
      = l.sum + ((l.filter (fun w => w = 0)).length : ℚ) * r := by
  induction l with
  | nil => simp
  | cons a l ih =>
    by_cases ha : a = 0
    · simp [ha, ih]
      ring
    · simp [ha, ih]
      ring

theorem sum_filter_ne_zero (l : List ℚ) :
    (l.filter (fun w => w ≠ 0)).sum = l.sum := by
  induction l with
  | nil => rfl
  | cons a l ih =>
    rw [List.filter_cons]
    by_cases ha : a = 0
    · rw [if_neg (by simp [ha]), ih, List.sum_cons, ha, zero_add]
    · rw [if_pos (by simp [ha]), List.sum_cons, List.sum_cons, ih]

/-! ## Claim theorems: table side -/

/-- C1: if some row's logical column count (spans of non-covered cells plus
span-introduced covered placeholders) differs from the first row's count,
`table_matrix_to_pf` raises an `IndexError` carrying the expected count, the
actual count, and the (first) offending row, and no table is produced; in
particular the 4-column table whose row at index 1 has a span-3 cell (with
every other row 4 unspanned cells) raises identifying row index 1 with
expected 4 and actual 6. -/
theorem table_matrix_to_pf_column_mismatch :
    (∀ (first : List MatrixCell) (rest : List (List MatrixCell)),
      (∃ r ∈ first :: rest, rowColCnt r ≠ rowColCnt first) →
      ∃ row rowIdx,
        (first :: rest).get? rowIdx = some row ∧
        rowColCnt row ≠ rowColCnt first ∧
        (∀ k < rowIdx, ∀ rk,
          (first :: rest).get? k = some rk → rowColCnt rk = rowColCnt first) ∧
        table_matrix_to_pf (first :: rest) =
          .error (.indexError (rowColCnt first) (rowColCnt row) rowIdx)) ∧
    table_matrix_to_pf
      [List.replicate 4 {}, ⟨3, 1⟩ :: List.replicate 3 {}, List.replicate 4 {}] =
      .error (.indexError 4 6 1) := by
  constructor
  · intro first rest h
    rcases buildRows_err (rowColCnt first) (first :: rest) h 0 with
      ⟨j, row, hget, hne, hmin, heq⟩
    rw [Nat.zero_add] at heq
    refine ⟨row, j, hget, hne, hmin, ?_⟩
    simp only [table_matrix_to_pf]
    rw [heq]
    rfl
  · rfl

theorem table_matrix_to_pf_column_mismatch_witness :
    ∃ row rowIdx,
      ([[({} : MatrixCell)], [⟨2, 1⟩]] : List (List MatrixCell)).get? rowIdx
        = some row ∧
      rowColCnt row ≠ rowColCnt [({} : MatrixCell)] ∧
      (∀ k < rowIdx, ∀ rk,
        ([[({} : MatrixCell)], [⟨2, 1⟩]] : List (List MatrixCell)).get? k = some rk →
          rowColCnt rk = rowColCnt [({} : MatrixCell)]) ∧
      table_matrix_to_pf [[({} : MatrixCell)], [⟨2, 1⟩]] =
        .error (.indexError (rowColCnt [({} : MatrixCell)]) (rowColCnt row) rowIdx) :=
  table_matrix_to_pf_column_mismatch.1 [({} : MatrixCell)] [[⟨2, 1⟩]]
    ⟨[⟨2, 1⟩], by simp, by decide⟩

/-- C2: when at least one per-column width is zero ("unspecified"),
`render_table_latex` resolves widths by giving each zero an even share of
the unallocated fraction (1 minus the sum of the specified widths, divided
by the number of zeros), scales everything by the table's `total_width`
budget (default 0.8), and the resolved widths sum to `total_width`
(hence within tolerance 1e-6). -/
theorem render_table_latex_width_allocation :
    ∀ (width : List ℚ) (total_width : ℚ), 0 ∈ width →
      ∃ resolved,
        render_table_latex_widths width total_width = .ok resolved ∧
        resolved = width.map (fun w =>
          (if w = 0 then
             (1 - (width.filter (fun w => w ≠ 0)).sum) /
               ((width.filter (fun w => w = 0)).length : ℚ)
           else w) * total_width) ∧
        resolved.sum = total_width ∧
        |resolved.sum - total_width| ≤ 1 / 1000000 ∧
        table_total_width_default = 0.8 := by
  intro width t h0
  have hmem : (0 : ℚ) ∈ width.filter (fun w => w = 0) := by
    simp [List.mem_filter, h0]
  have hlen : (width.filter (fun w => w = 0)).length ≠ 0 := by
    intro hc
    rw [List.length_eq_zero] at hc
    simp [hc] at hmem
  have hlenQ : ((width.filter (fun w => w = 0)).length : ℚ) ≠ 0 := by
    exact_mod_cast hlen
  set n : ℚ := ((width.filter (fun w => w = 0)).length : ℚ) with hn
  set r : ℚ := (1 - width.sum) / n with hr
  have hsum : ((width.map (fun w => if w = 0 then r else w)).map
      (fun x => x * t)).sum = t := by
    rw [sum_map_mul_right_q, sum_map_fill_zeros, ← hn, hr]
    have h1 : width.sum + n * ((1 - width.sum) / n) = 1 := by field_simp
    rw [h1, one_mul]
  refine ⟨(width.map (fun w => if w = 0 then r else w)).map (fun x => x * t),
    ?_, ?_, hsum, ?_, rfl⟩
  · simp [render_table_latex_widths, pyDivQ, hlenQ, hr, hn]
    rfl
  · rw [List.map_map]
    refine List.map_congr_left ?_
    intro w _
    simp only [Function.comp_apply]
    by_cases hw : w = 0
    · rw [if_pos hw, if_pos hw, hr, hn, sum_filter_ne_zero]
    · rw [if_neg hw, if_neg hw]
  · rw [hsum]
    norm_num

theorem render_table_latex_width_allocation_witness :
    ∃ resolved,
      render_table_latex_widths [1/2, 0, 0] (8/10) = .ok resolved ∧
      resolved = ([1/2, 0, 0] : List ℚ).map (fun w =>
        (if w = 0 then
           (1 - (([1/2, 0, 0] : List ℚ).filter (fun w => w ≠ 0)).sum) /
             ((([1/2, 0, 0] : List ℚ).filter (fun w => w = 0)).length : ℚ)
         else w) * (8/10)) ∧
      resolved.sum = 8/10 ∧
      |resolved.sum - 8/10| ≤ 1 / 1000000 ∧
      table_total_width_default = 0.8 :=
  render_table_latex_width_allocation [1/2, 0, 0] (8/10) (by norm_num)

/-- C9: when every per-column width is nonzero (all specified), the width
allocation of `render_table_latex` divides by zero unspecified columns and
raises `ZeroDivisionError` instead of rendering; the same unguarded division
exists in `render_table_odt`. -/
theorem render_table_widths_zero_division :
    ∀ (width : List ℚ) (total_width : ℚ), (∀ w ∈ width, w ≠ 0) →
      render_table_latex_widths width total_width = .error .zeroDivisionError ∧
      render_table_odt_widths width total_width = .error .zeroDivisionError := by
  intro width t h
  have hfil : width.filter (fun w => w = 0) = [] := by
    rw [List.filter_eq_nil_iff]
    intro a ha
    simp [h a ha]
  constructor <;>
    · simp [render_table_latex_widths, render_table_odt_widths, hfil, pyDivQ]
      rfl

theorem render_table_widths_zero_division_witness :
    render_table_latex_widths [1/2, 1/2] (8/10) = .error .zeroDivisionError ∧
    render_table_odt_widths [1/2, 1/2] (8/10) = .error .zeroDivisionError :=
  render_table_widths_zero_division [1/2, 1/2] (8/10) (by norm_num)

/-- C4 counterexample: for a 4-column row, the underline range (2,3) is
emitted with `cmidruleoption = "rl"`, not `"lr"` as the claim states. -/
theorem underline_trim_lr_counterexample :
    underline_hline 4 2 3 = .cmidrule 2 3 "rl" ∧
    hlineTrim (underline_hline 4 2 3) ≠ "lr" := by
  constructor
  · rfl
  · decide

/-- C4 amended: for a row of a 4-logical-column table, underline range
(1,4) emits a full-width rule with no trim codes and (2,3) a partial rule
trimmed on both sides with trim string `"rl"` (the code writes the trim
codes in the order right-then-left); in general, for 1-based ranges inside
the table, the left trim code is present exactly when the range starts
after column 1 and the right trim code exactly when it ends before the last
column. -/
theorem underline_trim_amended :
    underline_hline 4 1 4 = .full ∧
    underline_hline 4 2 3 = .cmidrule 2 3 "rl" ∧
    (∀ col_cnt start stop : ℕ, 1 ≤ start → stop ≤ col_cnt →
      (('l' ∈ (hlineTrim (underline_hline col_cnt start stop)).toList) ↔
        1 < start) ∧
      (('r' ∈ (hlineTrim (underline_hline col_cnt start stop)).toList) ↔
        stop < col_cnt)) := by
  refine ⟨rfl, rfl, ?_⟩
  intro n s e h1 h2
  unfold underline_hline
  split_ifs with hfull hrl hl
  · obtain ⟨hs, he⟩ := hfull
    constructor
    · exact iff_of_false (show 'l' ∉ ("" : String).toList by decide) (by omega)
    · exact iff_of_false (show 'r' ∉ ("" : String).toList by decide) (by omega)
  · obtain ⟨hs, he⟩ := hrl
    constructor
    · exact iff_of_true (show 'l' ∈ ("rl" : String).toList by decide) hs
    · exact iff_of_true (show 'r' ∈ ("rl" : String).toList by decide) he
  · constructor
    · exact iff_of_true (show 'l' ∈ ("l" : String).toList by decide) hl
    · refine iff_of_false (show 'r' ∉ ("l" : String).toList by decide) ?_
      intro hc
      exact hrl ⟨hl, hc⟩
  · have hs1 : s = 1 := by omega
    have hen : e ≠ n := fun hc => hfull ⟨hs1, hc⟩
    have hlt : e < n := by omega
    constructor
    · exact iff_of_false (show 'l' ∉ ("r" : String).toList by decide) (by omega)
    · exact iff_of_true (show 'r' ∈ ("r" : String).toList by decide) hlt

theorem underline_trim_amended_witness :
    ('l' ∈ (hlineTrim (underline_hline 4 2 3)).toList ↔ 1 < 2) ∧
    ('r' ∈ (hlineTrim (underline_hline 4 2 3)).toList ↔ 3 < 4) :=
  underline_trim_amended.2.2 4 2 3 (by decide) (by decide)

/-! ## Python values for the DSL engine
(`_latex_column_definitions.py`, `_parsers.py`)

`Val` embeds the Python values the column-definition engine manipulates:
`None`, booleans, ints, floats (as `ℚ`), strings, constructed column
specifiers (an identifier plus the instance attribute dict, in `setattr`
order), Python lists, and the two raw parse artifacts of `_parsers.py`:
an unconverted `ParseResults` of a `column_definition` (`vparse`) and the
`List(...)` namedtuple produced by a bracketed `[column_definitions]` value
(`vbracket`). -/

mutual
inductive Val where
  | vnone
  | vbool (b : Bool)
  | vint (n : ℤ)
  | vfloat (q : ℚ)
  | vstr (s : String)
  | vspec (identifier : Char) (attrs : List (String × Val))
  | vlist (xs : List Val)
  | vparse (d : ColDefRes)
  | vbracket (ds : List ColDefRes)
  deriving Repr
inductive OptRes where
  | rkv (key : String) (value : Val)
  | rtok (token : String)
  deriving Repr
inductive ColDefRes where
  | mk (identifier : Char) (required : List Val) (optional : List OptRes)
  deriving Repr
end

/-! ### Python dict semantics on attribute/keyword lists
A Python dict is embedded as an association list in insertion order:
setting an existing key overwrites in place, a new key is appended. -/

def dictLookup : List (String × Val) → String → Option Val
  | [], _ => none
  | (k, v) :: rest, key => if k = key then some v else dictLookup rest key

def dictSet : List (String × Val) → String → Val → List (String × Val)
  | [], key, value => [(key, value)]
  | (k, v) :: rest, key, value =>
    if k = key then (k, value) :: rest else (k, v) :: dictSet rest key value

/-- `dict.pop(key)`: the value and the dict without that key. -/
def dictPop : List (String × Val) → String → Option (Val × List (String × Val))
  | [], _ => none
  | (k, v) :: rest, key =>
    if k = key then some (v, rest)
    else match dictPop rest key with
      | some (v', rest') => some (v', (k, v) :: rest')
      | none => none

/-- `dict(pairs)`: build in iteration order, later pairs overwrite earlier. -/
def dictFromPairs (ps : List (String × Val)) : List (String × Val) :=
  ps.foldl (fun d kv => dictSet d kv.1 kv.2) []

/-- `aliases.get(k, k)`. -/
def aliasGet (aliases : List (String × String)) (k : String) : String :=
  match aliases.lookup k with
  | some v => v
  | none => k

/-! ### Python numeric literals -/

def digitsToNat (cs : List Char) : ℕ :=
  cs.foldl (fun acc c => acc * 10 + (c.toNat - 48)) 0

/-- Fraction digits `fp` after a decimal point as a rational in `[0, 1)`. -/
def fracOfDigits (fp : List Char) : ℚ :=
  (digitsToNat fp : ℚ) / (10 : ℚ) ^ fp.length

/-- An optional exponent suffix `[eE][+-]?digits` that must end the string;
`none` when what remains is neither empty nor a well-formed exponent. -/
def expSuffix : List Char → Option ℤ
  | [] => some 0
  | c :: rest =>
    if c = 'e' ∨ c = 'E' then
      let (sgn, rest') : ℤ × List Char :=
        match rest with
        | '+' :: r => (1, r)
        | '-' :: r => (-1, r)
        | _ => (1, rest)
      let (ds, rest2) := rest'.span Char.isDigit
      if ds.isEmpty ∨ ¬ rest2.isEmpty then none
      else some (sgn * (digitsToNat ds : ℤ))
    else none

/-- Python `float(str)`: optional surrounding whitespace and sign, then
`digits[.digits*]` or `.digits`, with an optional exponent.  (The `inf` and
`nan` spellings and digit-group underscores are not modelled; nothing in
the engine passes them.)  `none` models the raised `ValueError`. -/
def pyFloatOfString (s : String) : Option ℚ :=
  let cs := s.trim.toList
  let (sgn, cs) : ℚ × List Char :=
    match cs with
    | '+' :: rest => (1, rest)
    | '-' :: rest => (-1, rest)
    | _ => (1, cs)
  let (ip, cs) := cs.span Char.isDigit
  match cs with
  | '.' :: rest =>
    let (fp, cs2) := rest.span Char.isDigit
    if ip.isEmpty ∧ fp.isEmpty then none
    else
      match expSuffix cs2 with
      | some e => some (sgn * ((digitsToNat ip : ℚ) + fracOfDigits fp) * (10 : ℚ) ^ e)
      | none => none
  | _ =>
    if ip.isEmpty then none
    else
      match expSuffix cs with
      | some e => some (sgn * (digitsToNat ip : ℚ) * (10 : ℚ) ^ e)
      | none => none

/-- Decimal expansion digits of a fraction in `[0, 1)`, stopping when the
remainder is zero; exact for every value arising here (Python floats whose
reprs terminate), truncated at the fuel bound otherwise. -/
def decDigitsAux : ℕ → ℚ → List Char
  | 0, _ => []
  | n + 1, r =>
    if r = 0 then []
    else
      let r10 := r * 10
      let d := (⌊r10⌋).toNat
      Char.ofNat (48 + d) :: decDigitsAux n (r10 - (⌊r10⌋ : ℚ))

/-- Python `repr` of a float: minimal decimal digits, always with a point
(`repr(0.1) = "0.1"`, `repr(4.0) = "4.0"`). -/
def pyFloatRepr (q : ℚ) : String :=
  let sign := if q < 0 then "-" else ""
  let a := |q|
  let ip := (⌊a⌋).toNat
  let ds := decDigitsAux 32 (a - (ip : ℚ))
  sign ++ toString ip ++ "." ++ (if ds.isEmpty then "0" else String.mk ds)

/-- Python `"{:.2f}".format(x)`: two decimals, rounding to nearest (ties do
not arise for the values produced by the engine). -/
def format2f (q : ℚ) : String :=
  let scaled : ℤ := ⌊q * 100 + 1/2⌋
  let sign := if scaled < 0 then "-" else ""
  let a := scaled.natAbs
  let f := a % 100
  sign ++ toString (a / 100) ++ "." ++ (if f < 10 then "0" else "") ++ toString f

/-! ## The DSL grammar (`_parsers.py`)

pyparsing's PEG-like semantics are embedded as a recursive-descent parser
over `List Char`: `MatchFirst` is ordered choice, `delimitedList` is greedy
with backtracking over a trailing `,`, `Optional` backtracks wholly, and
every leaf skips pyparsing's default whitespace (space, tab, newline)
before matching.  `parseString` does not require the whole input to be
consumed (the source never passes `parseAll`).  The mutually recursive
productions take a fuel argument; the entry points supply fuel that is
ample for their input (each grammar cycle consumes at least one
character). -/

abbrev Parser (α : Type) := List Char → Option (α × List Char)

def skipWs : List Char → List Char
  | [] => []
  | c :: cs => if c = ' ' ∨ c = '\t' ∨ c = '\n' then skipWs cs else c :: cs

/-- `pp.Literal(s)`: skip whitespace then match `s` exactly (a bare prefix
match: `Literal("true")` also matches at the front of `"truex"`). -/
def pLit (s : String) : Parser Unit := fun input =>
  let input := skipWs input
  if s.toList.isPrefixOf input then some ((), input.drop s.toList.length)
  else none

/-- `boolean = Literal("true") -> True | Literal("false") -> False`. -/
def pBoolean : Parser Val := fun input =>
  match pLit "true" input with
  | some (_, rest) => some (.vbool true, rest)
  | none =>
    match pLit "false" input with
    | some (_, rest) => some (.vbool false, rest)
    | none => none

/-- An optional `[eE][+-]?digits` inside a number; consumed only when
well-formed (the regex otherwise backtracks to the shorter match). -/
def pExpOpt (cs : List Char) : ℤ × List Char :=
  match cs with
  | c :: rest =>
    if c = 'e' ∨ c = 'E' then
      let (sgn, rest') : ℤ × List Char :=
        match rest with
        | '+' :: r => (1, r)
        | '-' :: r => (-1, r)
        | _ => (1, rest)
      let (ds, rest2) := rest'.span Char.isDigit
      if ds.isEmpty then (0, cs) else (sgn * (digitsToNat ds : ℤ), rest2)
    else (0, cs)
  | [] => (0, cs)

/-- `pyparsing_common.number`: `MatchFirst(sci_real, real, signed_integer)`
— a signed decimal with a point or an exponent converts to float, a bare
signed integer converts to int. -/
def pNumber : Parser Val := fun input =>
  let input := skipWs input
  let (sgnI, sgnQ, rest) : ℤ × ℚ × List Char :=
    match input with
    | '+' :: r => (1, 1, r)
    | '-' :: r => (-1, -1, r)
    | _ => (1, 1, input)
  let (ip, rest1) := rest.span Char.isDigit
  match rest1 with
  | '.' :: rest2 =>
    if ip.isEmpty ∧ ¬ (rest2.takeWhile Char.isDigit).length > 0 then none
    else
      let (fp, rest3) := rest2.span Char.isDigit
      if ip.isEmpty ∧ fp.isEmpty then none
      else
        let (e, rest4) := pExpOpt rest3
        some (.vfloat (sgnQ * ((digitsToNat ip : ℚ) + fracOfDigits fp) * (10 : ℚ) ^ e),
          rest4)
  | _ =>
    if ip.isEmpty then none
    else
      let (e, rest4) := pExpOpt rest1
      if e = 0 ∧ rest4 = rest1 then some (.vint (sgnI * (digitsToNat ip : ℤ)), rest1)
      else some (.vfloat (sgnQ * (digitsToNat ip : ℚ) * (10 : ℚ) ^ e), rest4)

/-- The body of a `pp.QuotedString(q, escChar="\\")`: characters up to the
closing quote, a backslash escaping the next character, no newline. -/
def pQuotedBody (q : Char) : List Char → Option (List Char × List Char)
  | [] => none
  | c :: rest =>
    if c = q then some ([], rest)
    else if c = '\n' then none
    else if c = '\\' then
      match rest with
      | [] => none
      | e :: rest' =>
        match pQuotedBody q rest' with
        | some (body, rem) => some (e :: body, rem)
        | none => none
    else
      match pQuotedBody q rest with
      | some (body, rem) => some (c :: body, rem)
      | none => none

/-- `string = QuotedString("'", escChar="\\") | QuotedString('"', escChar="\\")`. -/
def pQuoted : Parser Val := fun input =>
  let input := skipWs input
  match input with
  | c :: rest =>
    if c = '\'' ∨ c = '"' then
      match pQuotedBody c rest with
      | some (body, rem) => some (.vstr (String.mk body), rem)
      | none => none
    else none
  | [] => none

/-- `token_ = ~boolean + Combine(Word(alphas + "_") + Optional(Word(alphanums + "_")))`. -/
def pTokenName : Parser String := fun input =>
  let input := skipWs input
  if (pBoolean input).isSome then none
  else
    let (a, r1) := input.span (fun c => c.isAlpha ∨ c = '_')
    if a.isEmpty then none
    else
      let (b, r2) := r1.span (fun c => c.isAlphanum ∨ c = '_')
      some (String.mk (a ++ b), r2)

/-- `identifier = Word(alphas, max=1) + ~FollowedBy(Literal("=") | Word(alphas))`:
one alphabetic character not followed (after whitespace) by `=` or another
letter. -/
def pIdentifier : Parser Char := fun input =>
  let input := skipWs input
  match input with
  | c :: rest =>
    if c.isAlpha then
      match skipWs rest with
      | d :: _ => if d = '=' ∨ d.isAlpha then none else some (c, rest)
      | [] => some (c, rest)
    else none
  | [] => none

mutual

/-- `value = column_definition_ | boolean | number | string
| Suppress("[") + column_definitions_ + Suppress("]")` (ordered choice). -/
def pValue : ℕ → Parser Val
  | 0, _ => none
  | n + 1, input =>
    match pColDef n input with
    | some (d, rest) => some (.vparse d, rest)
    | none =>
      match pBoolean input with
      | some r => some r
      | none =>
        match pNumber input with
        | some r => some r
        | none =>
          match pQuoted input with
          | some r => some r
          | none =>
            match pLit "[" input with
            | some (_, r1) =>
              match pColDefs n r1 with
              | some (ds, r2) =>
                match pLit "]" r2 with
                | some (_, r3) => some (.vbracket ds, r3)
                | none => none
              | none => none
            | none => none

/-- `requireds = delimitedList(value)`. -/
def pRequireds : ℕ → Parser (List Val)
  | 0, _ => none
  | n + 1, input =>
    match pValue n input with
    | some (v, rest) =>
      let (vs, rest') := pMoreValues n rest
      some (v :: vs, rest')
    | none => none

def pMoreValues : ℕ → List Char → (List Val × List Char)
  | 0, input => ([], input)
  | n + 1, input =>
    match pLit "," input with
    | some (_, r1) =>
      match pValue n r1 with
      | some (v, r2) =>
        let (vs, r3) := pMoreValues n r2
        (v :: vs, r3)
      | none => ([], input)
    | none => ([], input)

/-- `key_value_pair = Group(key + Suppress("=") + value)`. -/
def pKeyValue : ℕ → Parser OptRes
  | 0, _ => none
  | n + 1, input =>
    match pTokenName input with
    | some (k, r1) =>
      match pLit "=" r1 with
      | some (_, r2) =>
        match pValue n r2 with
        | some (v, r3) => some (.rkv k v, r3)
        | none => none
      | none => none
    | none => none

/-- `optional = key_value_pair | token`. -/
def pOptional1 : ℕ → Parser OptRes
  | 0, _ => none
  | n + 1, input =>
    match pKeyValue n input with
    | some r => some r
    | none =>
      match pTokenName input with
      | some (t, rest) => some (.rtok t, rest)
      | none => none

/-- `optionals = delimitedList(optional)`. -/
def pOptionals : ℕ → Parser (List OptRes)
  | 0, _ => none
  | n + 1, input =>
    match pOptional1 n input with
    | some (o, rest) =>
      let (os, rest') := pMoreOptionals n rest
      some (o :: os, rest')
    | none => none

def pMoreOptionals : ℕ → List Char → (List OptRes × List Char)
  | 0, input => ([], input)
  | n + 1, input =>
    match pLit "," input with
    | some (_, r1) =>
      match pOptional1 n r1 with
      | some (o, r2) =>
        let (os, r3) := pMoreOptionals n r2
        (o :: os, r3)
      | none => ([], input)
    | none => ([], input)

/-- `options = (requireds + Suppress(",") + optionals) | requireds | optionals`. -/
def pOptions : ℕ → Parser (List Val × List OptRes)
  | 0, _ => none
  | n + 1, input =>
    match pRequireds n input with
    | some (req, r1) =>
      match pLit "," r1 with
      | some (_, r2) =>
        match pOptionals n r2 with
        | some (opts, r3) => some ((req, opts), r3)
        | none => some ((req, []), r1)
      | none => some ((req, []), r1)
    | none =>
      match pOptionals n input with
      | some (opts, rest) => some (([], opts), rest)
      | none => none

/-- `column_definition = Group(identifier
+ Optional(Suppress("[") + options + Suppress("]")))`. -/
def pColDef : ℕ → Parser ColDefRes
  | 0, _ => none
  | n + 1, input =>
    match pIdentifier input with
    | some (id, r1) =>
      match pLit "[" r1 with
      | some (_, r2) =>
        match pOptions n r2 with
        | some ((req, opts), r3) =>
          match pLit "]" r3 with
          | some (_, r4) => some (⟨id, req, opts⟩, r4)
          | none => some (⟨id, [], []⟩, r1)
        | none => some (⟨id, [], []⟩, r1)
      | none => some (⟨id, [], []⟩, r1)
    | none => none

/-- `column_definitions = delimitedList(column_definition)`. -/
def pColDefs : ℕ → Parser (List ColDefRes)
  | 0, _ => none
  | n + 1, input =>
    match pColDef n input with
    | some (d, r1) =>
      let (ds, r2) := pMoreColDefs n r1
      some (d :: ds, r2)
    | none => none

def pMoreColDefs : ℕ → List Char → (List ColDefRes × List Char)
  | 0, input => ([], input)
  | n + 1, input =>
    match pLit "," input with
    | some (_, r1) =>
      match pColDef n r1 with
      | some (d, r2) =>
        let (ds, r3) := pMoreColDefs n r2
        (d :: ds, r3)
      | none => ([], input)
    | none => ([], input)

end

/-- Fuel ample for an input: every cycle through the grammar consumes at
least one character, spending a bounded number of fuel units. -/
def parseFuel (s : String) : ℕ := 16 * s.length + 16

/-- `column_definitions.parseString(string)` (raising `ParseException` on
failure; trailing unconsumed input is ignored). -/
def parseColumnDefinitionsString (s : String) : Except PyErr (List ColDefRes) :=
  match pColDefs (parseFuel s) s.toList with
  | some (ds, _) => .ok ds
  | none => .error (.parseException "Expected column definitions")

/-- `options.parseString(string)`. -/
def parseOptionsString (s : String) : Except PyErr (List Val × List OptRes) :=
  match pOptions (parseFuel s) s.toList with
  | some (r, _) => .ok r
  | none => .error (.parseException "Expected options")

/-! ## Column specifier classes (`_latex_column_definitions.py`)

The metaclass `_MetaDefinition` merges `required_options`,
`optional_options` (over `reversed(bases)`, each base's `optional_options`
then `_optional_options`, then the class's own dict, preserving dict
insertion order) and `internal_options`, and installs the generic
`__init__`.  The merge is evaluated here once per class and recorded as a
`ClassConfig`. -/

structure ClassConfig where
  identifier : Char
  required_options : List String
  optional_options : List (String × Val)
  internal_options : List (String × Val)

/-- `BaseColumnDefinition.internal_options`. -/
def baseInternalOptions : List (String × Val) :=
  [("_no_left_padding", .vbool false), ("_no_right_padding", .vbool false)]

/-- `BaseColumnDefinition.optional_options`. -/
def baseOptionalOptions : List (String × Val) :=
  [("multicolumn_definitions", .vnone), ("no_space_after", .vnone),
   ("space_after", .vnone)]

/-- `_WithOptionString._optional_options`. -/
def withOptionStringOptional : List (String × Val) :=
  [("baselineskip", .vstr "10pt"), ("raggedright", .vbool false)]

/-- `SimpleColumn` for each identifier in `"lrc"`. -/
def SimpleColumnConfig (id : Char) : ClassConfig :=
  ⟨id, [], baseOptionalOptions, baseInternalOptions⟩

/-- `ParagraphColumn` for each identifier in `"pmb"`: bases
`(BaseColumnDefinition, _WithOptionString)` reversed give
baselineskip/raggedright then the base options; the class's own
`multicolumn_definitions` overwrites in place and `indent_fraction` is
appended. -/
def ParagraphColumnConfig (id : Char) : ClassConfig :=
  ⟨id, ["width"],
   withOptionStringOptional ++ baseOptionalOptions ++
     [("indent_fraction", .vfloat (1/10))],
   baseInternalOptions⟩

/-- The attrs of `_column_definition_classes["l"]()` (evaluated at class
creation for `SColumn`'s default): internal options then optional defaults. -/
def LColumnDefaultInstance : Val :=
  .vspec 'l' (baseInternalOptions ++ baseOptionalOptions)

/-- `SColumn`: base options first (its own `multicolumn_definitions`
default, an `LColumn` instance, overwrites in place), then the remaining
own options in dict order. -/
def SColumnConfig : ClassConfig :=
  ⟨'S', [],
   [("multicolumn_definitions", LColumnDefaultInstance),
    ("no_space_after", .vnone), ("space_after", .vnone),
    ("table_format", .vstr "3.2"), ("add_integer_zero", .vnone),
    ("table_column_width", .vnone), ("table_number_alignment", .vnone),
    ("retain_explicit_plus", .vnone), ("detect_inline_weight", .vstr "math")],
   baseInternalOptions⟩

/-- `XColumn`: bases `(BaseColumnDefinition, _WithOptionString)`. -/
def XColumnConfig : ClassConfig :=
  ⟨'X', [], withOptionStringOptional ++ baseOptionalOptions,
   baseInternalOptions⟩

/-- `_column_definition_classes` keyed by identifier (the `None`-keyed
entries for the two abstract classes are unreachable from the grammar's
one-character identifiers). -/
def column_definition_classes (id : Char) : Option ClassConfig :=
  if id = 'l' ∨ id = 'r' ∨ id = 'c' then some (SimpleColumnConfig id)
  else if id = 'p' ∨ id = 'm' ∨ id = 'b' then some (ParagraphColumnConfig id)
  else if id = 'S' then some SColumnConfig
  else if id = 'X' then some XColumnConfig
  else none

def isParagraphId (id : Char) : Bool :=
  id = 'p' ∨ id = 'm' ∨ id = 'b'

/-- A Python numeric operand; anything else raises `TypeError` when used in
arithmetic (`bool` counts as 1/0). -/
def pyNum : Val → Except PyErr ℚ
  | .vint n => .ok n
  | .vfloat q => .ok q
  | .vbool b => .ok (if b then 1 else 0)
  | _ => .error (.typeError "unsupported operand type(s)")

/-- `setattr(self, name, value)` routed through the class's property
setters: `ParagraphColumn.width` tries `float(value)` and falls back to
`str(value)` on `ValueError` (a `TypeError` from `float()` propagates);
`SColumn.table_column_width` stores unchanged in its private slot. -/
def setattrCol (cfg : ClassConfig) (attrs : List (String × Val))
    (name : String) (value : Val) : Except PyErr (List (String × Val)) :=
  if isParagraphId cfg.identifier && name == "width" then
    match value with
    | .vint n => .ok (dictSet attrs "_width" (.vfloat n))
    | .vfloat q => .ok (dictSet attrs "_width" (.vfloat q))
    | .vbool b => .ok (dictSet attrs "_width" (.vfloat (if b then 1 else 0)))
    | .vstr s =>
      match pyFloatOfString s with
      | some q => .ok (dictSet attrs "_width" (.vfloat q))
      | none => .ok (dictSet attrs "_width" (.vstr s))
    | _ => .error (.typeError "float() argument must be a string or a number")
  else if cfg.identifier = 'S' && name == "table_column_width" then
    .ok (dictSet attrs "_table_column_width" value)
  else .ok (dictSet attrs name value)

/-- The required-option loop of the generic `__init__`: a keyword wins,
otherwise the next positional argument is popped, otherwise
`ValueError(f"{option!r} needs to be specified")`. -/
def consumeRequired (cfg : ClassConfig) :
    List String → List Val → List (String × Val) → List (String × Val) →
    Except PyErr (List Val × List (String × Val) × List (String × Val))
  | [], args, kwargs, attrs => .ok (args, kwargs, attrs)
  | option :: rest, args, kwargs, attrs =>
    match dictPop kwargs option with
    | some (value, kwargs') => do
      let attrs' ← setattrCol cfg attrs option value
      consumeRequired cfg rest args kwargs' attrs'
    | none =>
      match args with
      | [] => .error (.valueError ("'" ++ option ++ "' needs to be specified"))
      | a :: args' => do
        let attrs' ← setattrCol cfg attrs option a
        consumeRequired cfg rest args' kwargs attrs'

/-- The optional-option loop: `value = kwargs.pop(option, default)`. -/
def consumeOptional (cfg : ClassConfig) :
    List (String × Val) → List (String × Val) → List (String × Val) →
    Except PyErr (List (String × Val) × List (String × Val))
  | [], kwargs, attrs => .ok (kwargs, attrs)
  | (option, default) :: rest, kwargs, attrs => do
    let (value, kwargs') :=
      match dictPop kwargs option with
      | some (v, kw) => (v, kw)
      | none => (default, kwargs)
    let attrs' ← setattrCol cfg attrs option value
    consumeOptional cfg rest kwargs' attrs'

/-- The generic `__init__` installed by `_MetaDefinition`: set internal
options, resolve required options (keyword first, then positional
left-to-right), apply optional defaults with keyword overrides; none of
the concrete classes defines its own `__init__`, so leftover positional or
keyword arguments raise `ValueError`. -/
def initColumn (cfg : ClassConfig) (args : List Val)
    (kwargs : List (String × Val)) : Except PyErr Val := do
  let attrs := cfg.internal_options
  let (args1, kwargs1, attrs1) ←
    consumeRequired cfg cfg.required_options args kwargs attrs
  let (kwargs2, attrs2) ← consumeOptional cfg cfg.optional_options kwargs1 attrs1
  match args1, kwargs2 with
  | [], [] => .ok (.vspec cfg.identifier attrs2)
  | _, _ => .error (.valueError "Got unexpected arguments or keyword arguments")

/-- `str(e)` of an embedded exception. -/
def pyErrMsg : PyErr → String
  | .valueError m => m
  | .typeError m => m
  | .indexError m => m
  | .nameError m => m
  | .zeroDivisionError => "division by zero"
  | .attributeError m => m
  | .parseException m => m

/-- The `try: column_specifier_class(*required, **optional) except` block of
`_column_specifier_from_one_result`. -/
def constructColumnSpecifier (identifier : Char) (cfg : ClassConfig)
    (required : List Val) (optionalDict : List (String × Val))
    (ignore_errors : Bool) : Except PyErr Val :=
  match initColumn cfg required optionalDict with
  | .ok spec => .ok spec
  | .error e =>
    if ignore_errors then .ok LColumnDefaultInstance
    else
      .error (.valueError
        ("Encountered problems creating column specifier for identifier: " ++
          String.singleton identifier ++ "; " ++ pyErrMsg e))

mutual

/-- `_process_value`: a bracketed list becomes the list of specifiers, a
nested `column_definition` `ParseResults` becomes a specifier (both with
`ignore_errors` left at its default), anything else passes through. -/
def process_value : ℕ → Val → Except PyErr Val
  | 0, _ => .error (.valueError "recursion limit exceeded")
  | n + 1, value =>
    match value with
    | .vbracket ds => do
      let specs ← process_results n ds
      .ok (.vlist specs)
    | .vparse d => column_specifier_from_one_result n d false
    | v => .ok v

/-- The generator inside `_column_specifiers_from_results` (and the list
branch of `_process_value`): each result converted with `ignore_errors`
left at its default `None`. -/
def process_results : ℕ → List ColDefRes → Except PyErr (List Val)
  | 0, _ => .error (.valueError "recursion limit exceeded")
  | _ + 1, [] => .ok []
  | n + 1, d :: ds => do
    let s ← column_specifier_from_one_result n d false
    let ss ← process_results n ds
    .ok (s :: ss)

/-- The dict comprehension over the parsed optional items: a key/value pair
has its value processed, a bare token maps to `True`. -/
def process_result_optionals : ℕ → List OptRes → Except PyErr (List (String × Val))
  | 0, _ => .error (.valueError "recursion limit exceeded")
  | _ + 1, [] => .ok []
  | n + 1, o :: os => do
    let p ← match o with
      | .rkv k v => do
        let pv ← process_value n v
        pure (k, pv)
      | .rtok t => pure (t, Val.vbool true)
    let ps ← process_result_optionals n os
    .ok (p :: ps)

/-- `_column_specifier_from_one_result(result, ignore_errors=None)`:
process the optional items, look the identifier up (unknown identifier:
raise, or fall back to the `l` class under `ignore_errors`), construct
(construction failure: raise, or fall back to a plain `LColumn()` under
`ignore_errors`).  The raw `required` values are passed unprocessed. -/
def column_specifier_from_one_result : ℕ → ColDefRes → Bool → Except PyErr Val
  | 0, _, _ => .error (.valueError "recursion limit exceeded")
  | n + 1, ⟨identifier, required, optional⟩, ignore_errors => do
    let optionalPairs ← process_result_optionals n optional
    let optionalDict := dictFromPairs optionalPairs
    match column_definition_classes identifier with
    | some cfg =>
      constructColumnSpecifier identifier cfg required optionalDict ignore_errors
    | none =>
      if ignore_errors then
        constructColumnSpecifier identifier (SimpleColumnConfig 'l') required
          optionalDict ignore_errors
      else
        .error (.valueError
          ("Could not find a column class with the identifier: " ++
            String.singleton identifier))

end

/-- `_column_specifiers_from_results(results, ignore_errors=None)`.
NOTE (faithful to the source): the `ignore_errors` parameter is accepted
but NOT forwarded — the generator body is
`yield _column_specifier_from_one_result(result)`, so every conversion
runs with the default (falsy) flag. -/
def column_specifiers_from_results (fuel : ℕ) (results : List ColDefRes)
    (ignore_errors : Bool) : Except PyErr (List Val) :=
  process_results fuel results

/-- `column_specifiers_from_string(string, ignore_errors=None)`. -/
def column_specifiers_from_string (s : String) (ignore_errors : Bool) :
    Except PyErr (List Val) := do
  let results ← parseColumnDefinitionsString s
  column_specifiers_from_results (parseFuel s) results ignore_errors

/-- `_process_token(token, aliases, tokens)`. -/
def process_token (token : String) (aliases : List (String × String))
    (tokens : List (String × (String × Val))) : String × Val :=
  let token' := aliasGet aliases token
  match tokens.lookup token' with
  | some (key, value) => (aliasGet aliases key, value)
  | none => (aliasGet aliases token', .vbool true)

/-- `[_process_value(v) for v in required]`. -/
def processValues (fuel : ℕ) : List Val → Except PyErr (List Val)
  | [] => .ok []
  | v :: vs => do
    let pv ← process_value fuel v
    let pvs ← processValues fuel vs
    .ok (pv :: pvs)

/-- The optional-item comprehension of `options_from_string`: key/value
pairs get their key aliased and value processed, tokens go through
`_process_token`. -/
def processOptionPairs (fuel : ℕ) (aliases : List (String × String))
    (tokens : List (String × (String × Val))) :
    List OptRes → Except PyErr (List (String × Val))
  | [] => .ok []
  | o :: os => do
    let p ← match o with
      | .rkv k v => do
        let pv ← process_value fuel v
        pure (aliasGet aliases k, pv)
      | .rtok t => pure (process_token t aliases tokens)
    let ps ← processOptionPairs fuel aliases tokens os
    .ok (p :: ps)

/-- The required-argument resolution loop of `options_from_string`:
a parsed keyword wins and is popped from `optional`; otherwise the next
positional is popped; an exhausted positional list raises unless the
caller supplied a default in `optional_arguments`. -/
def resolveArgumentsLoop (optional_arguments : List (String × Val)) :
    List String → List (String × Val) → List (String × Val) → List Val →
    Except PyErr (List (String × Val) × List (String × Val) × List Val)
  | [], got, optional, required => .ok (got, optional, required)
  | arg :: rest, got, optional, required =>
    match dictPop optional arg with
    | some (v, optional') =>
      resolveArgumentsLoop optional_arguments rest (dictSet got arg v) optional'
        required
    | none =>
      match required with
      | r :: required' =>
        resolveArgumentsLoop optional_arguments rest (dictSet got arg r) optional
          required'
      | [] =>
        if (dictLookup optional_arguments arg).isSome then
          resolveArgumentsLoop optional_arguments rest got optional []
        else
          .error (.valueError
            ("'" ++ arg ++ "' is a required argument and wasn't given."))

/-- `options_from_string(string, required_arguments=None,
**optional_arguments)` — `aliases` and `tokens` are popped from the keyword
arguments first; aliases shorter than two characters are rejected; the
parsed positional values are processed, the optional items become a dict
(later assignments to the same key win), required argument names consume
keyword entries first and positional values second, remaining optional
entries are merged in, and leftover positionals raise. -/
def options_from_string (s : String) (required_arguments : List String)
    (aliases : List (String × String))
    (tokens : List (String × (String × Val)))
    (optional_arguments : List (String × Val)) :
    Except PyErr (List (String × Val)) :=
  if aliases.any (fun kv => kv.1.length < 2) then
    .error (.valueError "Aliases must consist of at least two characters.")
  else do
    let (requiredRaw, optionalRaw) ← parseOptionsString s
    let required ← processValues (parseFuel s) requiredRaw
    let optionalPairs ← processOptionPairs (parseFuel s) aliases tokens optionalRaw
    let optional := dictFromPairs optionalPairs
    let (got, optionalLeft, requiredLeft) ←
      resolveArgumentsLoop optional_arguments required_arguments
        optional_arguments optional required
    let got' := optionalLeft.foldl (fun d kv => dictSet d kv.1 kv.2) got
    match requiredLeft with
    | [] => .ok got'
    | _ => .error (.valueError "Got unexpected positional arguments")

/-! ## Specifier methods -/

/-- `get_num_unit(string)`: scan for the first non-digit (the loop variable
keeps the last index when every character is a digit, and an empty string
leaves it unbound — `NameError`), convert the prefix with `float` and strip
the remainder. -/
def get_num_unit (s : String) : Except PyErr (ℚ × String) :=
  match s.toList with
  | [] => .error (.nameError "name 'i' is not defined")
  | cs =>
    let i :=
      match cs.findIdx? (fun c => !c.isDigit) with
      | some i => i
      | none => cs.length - 1
    match pyFloatOfString (String.mk (cs.take i)) with
    | some q => .ok (q, (String.mk (cs.drop i)).trim)
    | none => .error (.valueError "could not convert string to float")

/-- `BaseColumnDefinition.indent`: `[self]`, or `self` followed by `num`
deep copies. -/
def BaseColumnDefinition_indent (spec : Val) (num : ℕ) : List Val :=
  if num = 0 then [spec] else spec :: List.replicate num spec

/-- `ParagraphColumn.indent(num)`: with a unitless width each of the `num`
indentation levels removes `step = width * indent_fraction` from the
running width; every new column gets `width = step` (through the setter)
and `no_space_after = True`; the specifier itself keeps
`max(step, remaining)`.  All produced columns and the specifier itself
share the one `widths_of_indents` list (Python list aliasing), which holds
the `num` level widths followed by the final width.  A width carrying a
unit string reaches `f"..."` formatting with the spec `.2d` applied to a
float, which raises `ValueError` in the first loop iteration. -/
def ParagraphColumn_indent (spec : Val) (num : ℕ) : Except PyErr (List Val) :=
  match spec with
  | .vspec id attrs =>
    if num = 0 then .ok [spec]
    else do
      let width0 ←
        match dictLookup attrs "_width" with
        | some w => pure w
        | none => Except.error (.attributeError "_width")
      let (wq, unit) ←
        match width0 with
        | .vstr s => get_num_unit s
        | w => do
          let q ← pyNum w
          pure (q, "")
      let frac ←
        match dictLookup attrs "indent_fraction" with
        | some f => pyNum f
        | none => Except.error (.attributeError "indent_fraction")
      let step := wq * frac
      if unit ≠ "" then
        Except.error (.valueError "Unknown format code 'd' for object of type 'float'")
      else
        let total := wq - (num : ℚ) * step
        let final := max step total
        let widths : Val :=
          .vlist (List.replicate num (Val.vfloat step) ++ [Val.vfloat final])
        let levelAttrs :=
          dictSet (dictSet (dictSet attrs "_width" (.vfloat step))
            "_widths_of_indents" widths) "no_space_after" (.vbool true)
        let selfAttrs :=
          dictSet (dictSet attrs "_width" (.vfloat final))
            "_widths_of_indents" widths
        .ok (List.replicate num (.vspec id levelAttrs) ++ [.vspec id selfAttrs])
  | _ => .error (.typeError "indent on a non-column")

/-- Python `sum(xs)` over the slice of recorded widths. -/
def pySumVals : List Val → Except PyErr ℚ
  | [] => .ok 0
  | v :: vs => do
    let q ← pyNum v
    let rest ← pySumVals vs
    .ok (q + rest)

/-- `BaseColumnDefinition.get_n_definition(n)`: no override — a copy of
self; a specifier override — that specifier for any width; otherwise the
override indexed by `n`. -/
def BaseColumnDefinition_get_n_definition (spec : Val) (n : ℕ) :
    Except PyErr Val :=
  match spec with
  | .vspec _ attrs =>
    match dictLookup attrs "multicolumn_definitions" with
    | some .vnone => .ok spec
    | some (.vspec id2 a2) => .ok (.vspec id2 a2)
    | some (.vlist xs) =>
      match xs.get? n with
      | some m => .ok m
      | none => .error (.indexError "list index out of range")
    | some _ => .error (.typeError "object is not subscriptable")
    | none => .error (.attributeError "multicolumn_definitions")
  | _ => .error (.typeError "get_n_definition on a non-column")

/-- `ParagraphColumn.get_n_definition(n)`: with no override, a copy whose
width (through the setter) is `sum(self._widths_of_indents[n:])` and whose
`_identifier` is overridden to `"p"`; otherwise as in the base class. -/
def ParagraphColumn_get_n_definition (spec : Val) (n : ℕ) :
    Except PyErr Val :=
  match spec with
  | .vspec id attrs =>
    match dictLookup attrs "multicolumn_definitions" with
    | some .vnone => do
      let woi ←
        match dictLookup attrs "_widths_of_indents" with
        | some (.vlist xs) => pure xs
        | some _ => Except.error (.typeError "object is not subscriptable")
        | none => Except.error (.attributeError "_widths_of_indents")
      let s ← pySumVals (woi.drop n)
      .ok (.vspec id (dictSet (dictSet attrs "_width" (.vfloat s))
        "_identifier" (.vstr "p")))
    | some (.vspec id2 a2) => .ok (.vspec id2 a2)
    | some (.vlist xs) =>
      match xs.get? n with
      | some m => .ok m
      | none => .error (.indexError "list index out of range")
    | some _ => .error (.typeError "object is not subscriptable")
    | none => .error (.attributeError "multicolumn_definitions")
  | _ => .error (.typeError "get_n_definition on a non-column")

/-! ## `__repr__` (`BaseColumnDefinition.__repr__`) -/

/-- `getattr(self, name)` routed through the property getters:
`ParagraphColumn.width` formats a float `_width` as
`f"{width_:.2f}\textwidth"` and returns a stored string unchanged;
`SColumn.table_column_width` likewise from its private slot. -/
def getattrColumn (spec : Val) (name : String) : Except PyErr Val :=
  match spec with
  | .vspec id attrs =>
    if isParagraphId id && name == "width" then
      match dictLookup attrs "_width" with
      | some (.vfloat q) => .ok (.vstr (format2f q ++ "\\textwidth"))
      | some w => .ok w
      | none => .error (.attributeError "_width")
    else if id = 'S' && name == "table_column_width" then
      match dictLookup attrs "_table_column_width" with
      | some (.vfloat q) => .ok (.vstr (format2f q ++ "\\textwidth"))
      | some w => .ok w
      | none => .error (.attributeError "_table_column_width")
    else
      match dictLookup attrs name with
      | some v => .ok v
      | none => .error (.attributeError name)
  | _ => .error (.typeError "getattr on a non-object")

def pyStrEscape : List Char → List Char
  | [] => []
  | c :: cs =>
    if c = '\\' then '\\' :: '\\' :: pyStrEscape cs
    else if c = '\'' then '\\' :: '\'' :: pyStrEscape cs
    else c :: pyStrEscape cs

/-- `repr` of a Python string: single-quoted with backslashes doubled (the
engine's strings never force Python's double-quote fallback). -/
def pyStrRepr (s : String) : String :=
  "'" ++ String.mk (pyStrEscape s.toList) ++ "'"

mutual

/-- Python `repr`: `None`, booleans, numbers, strings; a column specifier
uses `BaseColumnDefinition.__repr__`
(`f"{identifier}({options})"` over the chained required and optional
option names with `repr(getattr(self, o))`, so `width` reads the formatted
property); a list brackets its members.  The raw parse artifacts are never
repr'd by the engine. -/
def reprVal : ℕ → Val → String
  | _, .vnone => "None"
  | _, .vbool true => "True"
  | _, .vbool false => "False"
  | _, .vint n => toString n
  | _, .vfloat q => pyFloatRepr q
  | _, .vstr s => pyStrRepr s
  | 0, .vspec _ _ => ""
  | n + 1, .vspec id attrs =>
    match column_definition_classes id with
    | some cfg =>
      String.singleton id ++ "(" ++
        String.intercalate ", "
          (reprFields n (.vspec id attrs)
            (cfg.required_options ++ cfg.optional_options.map Prod.fst)) ++ ")"
    | none => String.singleton id ++ "()"
  | 0, .vlist _ => ""
  | n + 1, .vlist xs => "[" ++ String.intercalate ", " (reprValList n xs) ++ "]"
  | _, .vparse _ => "ParseResults"
  | _, .vbracket _ => "List"

/-- One `f"{o}={repr(getattr(self, o))}"` per option name (every option is
set by `__init__`, so `getattr` cannot fail here). -/
def reprFields : ℕ → Val → List String → List String
  | 0, _, _ => []
  | _ + 1, _, [] => []
  | n + 1, spec, o :: os =>
    (o ++ "=" ++ reprVal n
      (match getattrColumn spec o with
       | .ok v => v
       | .error _ => .vnone)) :: reprFields n spec os

def reprValList : ℕ → List Val → List String
  | 0, _ => []
  | _ + 1, [] => []
  | n + 1, x :: xs => reprVal n x :: reprValList n xs

end

/-- `repr(specifier)` with fuel ample for any specifier the engine builds. -/
def reprColumnSpecifier (spec : Val) : String :=
  reprVal 64 spec

/-- Observation helper: the raw `_width` slot of a paragraph specifier,
when it holds a float. -/
def specWidthQ (spec : Val) : Option ℚ :=
  match spec with
  | .vspec _ attrs =>
    match dictLookup attrs "_width" with
    | some (.vfloat q) => some q
    | _ => none
  | _ => none

/-! ## Reference specifier values -/

/-- The attrs of a bare `SimpleColumn` instance (`l`, `r` or `c` with no
options): internal options then optional defaults. -/
def simpleColumnInstance (id : Char) : Val :=
  .vspec id (baseInternalOptions ++ baseOptionalOptions)

/-- The specifier parsed from `p[0.2]`. -/
def paragraphPoint2Spec : Val :=
  .vspec 'p'
    [("_no_left_padding", .vbool false), ("_no_right_padding", .vbool false),
     ("_width", .vfloat (1/5)),
     ("baselineskip", .vstr "10pt"), ("raggedright", .vbool false),
     ("multicolumn_definitions", .vnone), ("no_space_after", .vnone),
     ("space_after", .vnone), ("indent_fraction", .vfloat (1/10))]

/-- A `p` column of width 0.4 (default `indent_fraction` 0.1) indented
twice. -/
def indentTwiceExample : Except PyErr (List Val) := do
  let spec ← initColumn (ParagraphColumnConfig 'p') [.vfloat (2/5)] []
  ParagraphColumn_indent spec 2

/-- `get_n_definition(2)` on the original specifier afterwards (the
original object is the last element of `indent`'s result, mutated in
place). -/
def indentTwiceExampleMulti : Except PyErr Val := do
  let cols ← indentTwiceExample
  match cols.getLast? with
  | some self => ParagraphColumn_get_n_definition self 2
  | none => Except.error (.valueError "empty result")

/-! ## Claim theorems: DSL side -/

/-- C3: the option resolver on `"1,p[0.2],ul,mr"` with required arguments
columns/column_specifier, alias `ul → underline` and token mapping
`mr → (underline, midrule)` returns exactly
`{columns: 1, column_specifier: <p[0.2] specifier>, underline: "midrule"}`;
both `ul` and `mr` resolve to the key `underline` and the later `mr` wins
(dict assignment is last-wins). -/
theorem options_from_string_last_wins :
    options_from_string "1,p[0.2],ul,mr" ["columns", "column_specifier"]
        [("ul", "underline")] [("mr", ("underline", Val.vstr "midrule"))] [] =
      .ok [("columns", .vint 1),
           ("column_specifier", paragraphPoint2Spec),
           ("underline", .vstr "midrule")] ∧
    process_token "ul" [("ul", "underline")]
        [("mr", ("underline", Val.vstr "midrule"))] = ("underline", .vbool true) ∧
    process_token "mr" [("ul", "underline")]
        [("mr", ("underline", Val.vstr "midrule"))] =
      ("underline", .vstr "midrule") := by
  refine ⟨?_, ?_, ?_⟩ <;> with_unfolding_all rfl

/-- C5 counterexample: indenting the width-0.4/indent-fraction-0.1 `p`
column twice records level widths 0.04 and 0.04 and final width 0.32, and
`get_n_definition(2)` on the original returns a specifier of width
`sum(_widths_of_indents[2:]) = 0.32` — not `0.04 + 0.04 = 0.08`, the sum
of the two indentation levels' widths, so the claim's last conjunct fails
on this input. -/
theorem indent_get_n_definition_counterexample :
    indentTwiceExampleMulti.map specWidthQ = .ok (some (8/25)) ∧
    indentTwiceExample.map (fun cols => cols.map specWidthQ) =
      .ok [some (1/25), some (1/25), some (8/25)] ∧
    ¬ ((8/25 : ℚ) = 1/25 + 1/25) := by
  refine ⟨?_, ?_, by norm_num⟩ <;> with_unfolding_all rfl

/-- C5 amended: `indent(2)` on a `p` column of width 0.4 with
`indent_fraction` 0.1 produces three specifiers with widths 0.04, 0.04 and
0.32 — each level consuming `indent_fraction` of the width left-to-right —
summing to exactly 0.4 (hence at most 0.4); and `get_n_definition(2)` on
the original afterwards returns a specifier whose width is the remaining
width 0.32 = 0.4 minus the two indentation levels' widths (the sum of the
recorded per-level widths from index 2 on), not their sum. -/
theorem indent_get_n_definition_amended :
    indentTwiceExample.map List.length = .ok 3 ∧
    indentTwiceExample.map (fun cols => cols.map specWidthQ) =
      .ok [some (1/25), some (1/25), some (8/25)] ∧
    (1/25 : ℚ) = (2/5) * (1/10) ∧
    (8/25 : ℚ) = 2/5 - ((1/25) + (1/25)) ∧
    (1/25 + 1/25 + 8/25 : ℚ) = 2/5 ∧
    (1/25 + 1/25 + 8/25 : ℚ) ≤ 2/5 ∧
    indentTwiceExampleMulti.map specWidthQ = .ok (some (8/25)) := by
  refine ⟨?_, ?_, by norm_num, by norm_num, by norm_num, by norm_num, ?_⟩ <;> with_unfolding_all rfl

set_option maxRecDepth 8000 in
/-- C6 counterexample: `"p[0.2]"` is a valid DSL string, but re-parsing its
specifier's repr raises instead of yielding an equivalent specifier: the
repr's parenthesized option list is not DSL syntax, only the leading `p`
parses, and the required width is gone. -/
theorem repr_round_trip_counterexample :
    column_specifiers_from_string "p[0.2]" false = .ok [paragraphPoint2Spec] ∧
    reprColumnSpecifier paragraphPoint2Spec =
      "p(width='0.20\\\\textwidth', baselineskip='10pt', raggedright=False, multicolumn_definitions=None, no_space_after=None, space_after=None, indent_fraction=0.1)" ∧
    column_specifiers_from_string (reprColumnSpecifier paragraphPoint2Spec)
        false =
      .error (.valueError
        "Encountered problems creating column specifier for identifier: p; 'width' needs to be specified") := by
  refine ⟨?_, ?_, ?_⟩ <;> with_unfolding_all rfl

/-- C6 amended: parsing then re-parsing a specifier's repr yields an
equivalent specifier only when the kind has no required options and every
option is at its default (e.g. the bare simple columns `l`, `r`, `c`):
re-parsing a repr reads just the leading identifier, because the repr's
parenthesized `key=value` list is not part of the DSL grammar; for a
paragraph specifier the re-parse raises since the required width is not
recovered. -/
theorem repr_round_trip_simple :
    column_specifiers_from_string "l,r,c" false =
      .ok [simpleColumnInstance 'l', simpleColumnInstance 'r',
           simpleColumnInstance 'c'] ∧
    column_specifiers_from_string
        (reprColumnSpecifier (simpleColumnInstance 'l')) false =
      .ok [simpleColumnInstance 'l'] ∧
    column_specifiers_from_string
        (reprColumnSpecifier (simpleColumnInstance 'r')) false =
      .ok [simpleColumnInstance 'r'] ∧
    column_specifiers_from_string
        (reprColumnSpecifier (simpleColumnInstance 'c')) false =
      .ok [simpleColumnInstance 'c'] := by
  refine ⟨?_, ?_, ?_, ?_⟩ <;> with_unfolding_all rfl

/-- C7: for the unknown identifier `q`, parsing without `ignore_errors`
raises as the claim says; but parsing WITH `ignore_errors` raises the very
same error instead of yielding the fallback plain left column, because
`_column_specifiers_from_results` accepts the flag and does not forward it
to `_column_specifier_from_one_result` (whose fallback branch — third
conjunct — does produce the plain left column when the flag reaches it).
The claim matches the intended, documented policy; the dropped flag is a
code bug. -/
theorem ignore_errors_flag_dropped :
    column_specifiers_from_string "q" false =
      .error (.valueError
        "Could not find a column class with the identifier: q") ∧
    column_specifiers_from_string "q" true =
      .error (.valueError
        "Could not find a column class with the identifier: q") ∧
    column_specifier_from_one_result 32 ⟨'q', [], []⟩ true =
      .ok (simpleColumnInstance 'l') := by
  refine ⟨?_, ?_, ?_⟩ <;> with_unfolding_all rfl

theorem except_bind_ok {ε α β : Type} (a : α) (f : α → Except ε β) :
    (Except.ok a >>= f) = f a := rfl

theorem except_bind_error {ε α β : Type} (e : ε) (f : α → Except ε β) :
    ((Except.error e : Except ε α) >>= f) = Except.error e := rfl

theorem except_pure_eq {ε α : Type} (a : α) :
    (pure a : Except ε α) = Except.ok a := rfl

theorem dictPop_eq_none_of_lookup (l : List (String × Val)) (k : String)
    (h : dictLookup l k = none) : dictPop l k = none := by
  induction l with
  | nil => rfl
  | cons kv rest ih =>
    obtain ⟨k', v⟩ := kv
    unfold dictLookup at h
    unfold dictPop
    by_cases hk : k' = k
    · simp [hk] at h
    · rw [if_neg hk] at h
      rw [if_neg hk, ih h]

/-- C8: a paragraph column (`p`, `m` or `b`) declares the required option
`width`; constructing one with no positional arguments and no `width`
keyword always raises `ValueError("'width' needs to be specified")` —
the option remains unset after consuming positionals left-to-right and
keywords.  (`width` is the only required option any column kind
declares.) -/
theorem required_option_missing_raises :
    ∀ id ∈ (['p', 'm', 'b'] : List Char), ∀ kwargs : List (String × Val),
      dictLookup kwargs "width" = none →
      initColumn (ParagraphColumnConfig id) [] kwargs =
        .error (.valueError "'width' needs to be specified") := by
  intro id _ kwargs h
  simp only [initColumn, ParagraphColumnConfig, consumeRequired]
  rw [dictPop_eq_none_of_lookup _ _ h]
  rfl

theorem required_option_missing_raises_witness :
    initColumn (ParagraphColumnConfig 'p') []
        [("indent_fraction", .vfloat (3/20))] =
      .error (.valueError "'width' needs to be specified") :=
  required_option_missing_raises 'p' (by decide)
    [("indent_fraction", .vfloat (3/20))] rfl

/-- C10: a paragraph column whose width was supplied as a string a length
unit follows (`float` fails on it, so it is stored as a string, and
`get_num_unit` splits off a nonempty unit): every `indent(num)` with
`num ≥ 1` raises `ValueError` because the per-level width is re-formatted
with `f"{new_width:.2d}{unit}"`, an invalid format code for a float;
whereas with a fractional (unitless) width the same `indent(num)` succeeds
with `num + 1` specifiers. -/
theorem indent_unit_width_raises :
    (∀ (attrs : List (String × Val)) (s : String),
      pyFloatOfString s = none →
      setattrCol (ParagraphColumnConfig 'p') attrs "width" (.vstr s) =
        .ok (dictSet attrs "_width" (.vstr s))) ∧
    (∀ (id : Char) (attrs : List (String × Val)) (s : String) (q fq : ℚ)
        (u : String) (num : ℕ),
      dictLookup attrs "_width" = some (.vstr s) →
      get_num_unit s = .ok (q, u) → u ≠ "" →
      dictLookup attrs "indent_fraction" = some (.vfloat fq) →
      1 ≤ num →
      ParagraphColumn_indent (.vspec id attrs) num =
        .error (.valueError
          "Unknown format code 'd' for object of type 'float'")) ∧
    (∀ (q : ℚ) (num : ℕ), 1 ≤ num →
      ∃ cols,
        (do
          let spec ← initColumn (ParagraphColumnConfig 'p') [.vfloat q] []
          ParagraphColumn_indent spec num) = .ok cols ∧
        cols.length = num + 1) := by
  refine ⟨?_, ?_, ?_⟩
  · intro attrs s hf
    simp only [setattrCol, ParagraphColumnConfig, isParagraphId]
    rw [hf]
    rfl
  · intro id attrs s q fq u num hw hg hu hfrac hnum
    obtain ⟨k, rfl⟩ : ∃ k, num = k + 1 := ⟨num - 1, by omega⟩
    simp only [ParagraphColumn_indent]
    rw [if_neg (Nat.succ_ne_zero k)]
    simp only [hw, hg, hfrac, pyNum, except_pure_eq, except_bind_ok]
    rw [if_pos hu]
  · intro q num hnum
    obtain ⟨k, rfl⟩ : ∃ k, num = k + 1 := ⟨num - 1, by omega⟩
    refine ⟨List.replicate (k + 1)
        (.vspec 'p'
          (dictSet (dictSet (dictSet
            [("_no_left_padding", .vbool false), ("_no_right_padding", .vbool false),
             ("_width", .vfloat q),
             ("baselineskip", .vstr "10pt"), ("raggedright", .vbool false),
             ("multicolumn_definitions", .vnone), ("no_space_after", .vnone),
             ("space_after", .vnone), ("indent_fraction", .vfloat (1/10))]
            "_width" (.vfloat (q * (1/10))))
            "_widths_of_indents"
            (.vlist (List.replicate (k + 1) (Val.vfloat (q * (1/10))) ++
              [Val.vfloat (max (q * (1/10)) (q - ((k + 1 : ℕ) : ℚ) * (q * (1/10))))])))
            "no_space_after" (.vbool true))) ++
      [.vspec 'p'
        (dictSet (dictSet
          [("_no_left_padding", .vbool false), ("_no_right_padding", .vbool false),
           ("_width", .vfloat q),
           ("baselineskip", .vstr "10pt"), ("raggedright", .vbool false),
           ("multicolumn_definitions", .vnone), ("no_space_after", .vnone),
           ("space_after", .vnone), ("indent_fraction", .vfloat (1/10))]
          "_width"
          (.vfloat (max (q * (1/10)) (q - ((k + 1 : ℕ) : ℚ) * (q * (1/10))))))
          "_widths_of_indents"
          (.vlist (List.replicate (k + 1) (Val.vfloat (q * (1/10))) ++
            [Val.vfloat (max (q * (1/10)) (q - ((k + 1 : ℕ) : ℚ) * (q * (1/10))))])))],
      ?_, ?_⟩
    · with_unfolding_all rfl
    · simp

theorem indent_unit_width_raises_witness :
    (setattrCol (ParagraphColumnConfig 'p') [] "width" (.vstr "3cm") =
      .ok (dictSet [] "_width" (.vstr "3cm"))) ∧
    (ParagraphColumn_indent
        (.vspec 'p'
          [("_width", .vstr "3cm"), ("indent_fraction", .vfloat (1/10))]) 1 =
      .error (.valueError
        "Unknown format code 'd' for object of type 'float'")) ∧
    (∃ cols,
      (do
        let spec ← initColumn (ParagraphColumnConfig 'p') [.vfloat (2/5)] []
        ParagraphColumn_indent spec 1) = .ok cols ∧
      cols.length = 1 + 1) :=
  ⟨indent_unit_width_raises.1 [] "3cm" (by with_unfolding_all rfl),
   indent_unit_width_raises.2.1 'p'
     [("_width", .vstr "3cm"), ("indent_fraction", .vfloat (1/10))]
     "3cm" 3 (1/10) "cm" 1 (by rfl) (by with_unfolding_all rfl) (by decide)
     (by rfl) (by decide),
   indent_unit_width_raises.2.2 (2/5) 1 (by decide)⟩

end Panscola
